import Mathlib

/-!
Shallow embedding of the two PDF-attachment fetchers of the
Email-PDF-Retriever repository:

* Fetcher A: src/email_pdf_retriever.py (generic IMAP, stdlib email parsing)
* Fetcher B: src/zimbra_pdf_retriever.py (imap-tools client, monthly folders)

Pure string/path logic is translated function by function; the effectful
pipeline (connect, search, fetch, write) is embedded as explicit state
passing over a model filesystem (the list of paths that exist) together
with lists of environment-determined outcomes (connection attempts,
per-message fetch results).  Machine-level details that the claims do not
touch (byte decoding of headers, the binary payloads) are elided.
-/

/-- Decimal digits of a natural number, most significant first, computed
with explicit fuel so that the definition is structural (the call sites
always pass sufficient fuel).  This embeds the rendering that Python
performs inside f-strings such as f"{counter}" and f"{year}". -/
def nat_digits_aux : Nat → Nat → List Char
  | 0, _ => []
  | fuel + 1, n =>
    if n < 10 then [Nat.digitChar n]
    else nat_digits_aux fuel (n / 10) ++ [Nat.digitChar (n % 10)]

/-- Decimal string of a natural number, as Python renders it in f-strings. -/
def nat_repr_py (n : Nat) : String :=
  String.mk (nat_digits_aux (n + 1) n)

/-- Left pad with zeros to the given width, the embedding of the Python
format spec 0Nd used as f"{month:02d}". -/
def zero_pad (width : Nat) (s : String) : String :=
  String.mk (List.replicate (width - s.data.length) '0' ++ s.data)

/-- os.path.join for one directory level on a POSIX system, for a relative
second component (which is the only way both scripts call it). -/
def path_join (dir name : String) : String :=
  dir ++ "/" ++ name

/-- Membership test of one string inside another, the embedding of the
Python expression needle in hay on str values. -/
def is_substr (needle hay : String) : Bool :=
  (List.range (hay.data.length + 1)).any
    (fun i => needle.data.isPrefixOf (hay.data.drop i))

/-- str.lower restricted to the ASCII range (the range that matters for
the .pdf suffix test it feeds). -/
def lower_str (s : String) : String :=
  String.mk (s.data.map Char.toLower)

/-- str.endswith on decoded strings. -/
def ends_with (s tail : String) : Bool :=
  tail.data.isSuffixOf s.data

/-- os.path.splitext restricted to names without path separators (both
scripts only apply it to sanitized base names).  CPython splits at the
last dot unless every character before that dot is itself a dot. -/
def splitext (s : String) : String × String :=
  let l := s.data
  let dotIdx := (List.range l.length).foldl
    (fun acc i => if l.get? i = some '.' then some i else acc) none
  match dotIdx with
  | none => (s, "")
  | some i =>
    if (l.take i).all (fun c => c = '.') then (s, "")
    else (String.mk (l.take i), String.mk (l.drop i))

namespace EmailPdf

/-- The reserved characters of the regular expression [\\/*?:"<>|] used by
clean_filename in src/email_pdf_retriever.py. -/
def reserved_chars : List Char := ['\\', '/', '*', '?', ':', '"', '<', '>', '|']

/-- Character-wise action of re.sub: a reserved character becomes an
underscore, anything else is kept. -/
def replace_reserved (c : Char) : Char :=
  if c ∈ reserved_chars then '_' else c

/-- clean_filename of src/email_pdf_retriever.py.  The argument is None or
a decoded string; a falsy argument (None or the empty string) yields the
fixed default name. -/
def clean_filename (filename : Option String) : String :=
  match filename with
  | some s =>
    if s = "" then "unnamed_attachment.pdf"
    else String.mk (s.data.map replace_reserved)
  | none => "unnamed_attachment.pdf"

/-- One MIME part of a fetched message, keeping the fields that the loop of
download_pdf_attachments in src/email_pdf_retriever.py inspects. -/
structure Part where
  content_disposition : String
  content_type : String
  filename : Option String

/-- A fetched and parsed message of Fetcher A.  date_day is the message
internal date at day granularity (days since an arbitrary epoch), the
quantity that the IMAP SINCE criterion compares. -/
structure Msg where
  subject : Option String
  date_day : Int
  is_multipart : Bool
  parts : List Part

/-- Outcome of fetching one message id: a parsed message, a fetch whose
status is not OK (the loop prints and continues), or an exception raised
while processing (caught by the per-message handler, printed, and the loop
continues). -/
inductive FetchResult
  | ok (m : Msg)
  | fetch_failed
  | raises

/-- The subject-derived name component: a falsy subject becomes
no_subject, otherwise the decoded subject is sanitized. -/
def subject_name (m : Msg) : String :=
  match m.subject with
  | some s => if s = "" then "no_subject" else clean_filename (some s)
  | none => "no_subject"

/-- The file written for one MIME part, if any: the part must carry an
attachment disposition, have content type application/pdf, and have a
truthy filename; the written path joins the output directory with
subject, timestamp and sanitized filename. -/
def part_output (output_dir timestamp subject : String) (p : Part) : Option String :=
  if is_substr "attachment" p.content_disposition = true ∧
      p.content_type = "application/pdf" then
    match p.filename with
    | some fn =>
      if fn = "" then none
      else some (path_join output_dir
        (subject ++ "_" ++ timestamp ++ "_" ++ clean_filename (some fn)))
    | none => none
  else none

/-- All files written for one message: parts are scanned only when the
message is multipart. -/
def process_msg (output_dir timestamp : String) (m : Msg) : List String :=
  if m.is_multipart then
    m.parts.filterMap (part_output output_dir timestamp (subject_name m))
  else []

/-- Files contributed by one fetch outcome: failed fetches and caught
exceptions contribute nothing. -/
def msg_files (output_dir timestamp : String) : FetchResult → List String
  | .ok m => process_msg output_dir timestamp m
  | .fetch_failed => []
  | .raises => []

/-- Whether one fetch outcome makes the loop print a per-message error. -/
def is_msg_error : FetchResult → Bool
  | .ok _ => false
  | .fetch_failed => true
  | .raises => true

/-- Observable outcome of one run of Fetcher A: the returned list of
written paths, whether the top-level connection handler printed an error,
and how many per-message errors were printed. -/
structure RunResult where
  files : List String
  connect_error : Bool
  msg_errors : Nat
  deriving DecidableEq

/-- download_pdf_attachments of src/email_pdf_retriever.py.  The outcomes
of successive connection attempts are supplied as a list, of which the
function consumes exactly the first (the script never retries); search_ok
is the status of the SEARCH call; fetched lists the per-message outcomes
in mailbox order. -/
def download_pdf_attachments (connect_results : List Bool) (search_ok : Bool)
    (fetched : List FetchResult) (output_dir timestamp : String) : RunResult :=
  match connect_results with
  | [] => ⟨[], true, 0⟩
  | ok1 :: _ =>
    if ok1 = false then ⟨[], true, 0⟩
    else if search_ok = false then ⟨[], false, 0⟩
    else
      ⟨(fetched.map (msg_files output_dir timestamp)).flatten, false,
        fetched.countP is_msg_error⟩

/-- IMAP search criteria as built by Fetcher A: an abstract user-supplied
base criterion, optionally wrapped as (SINCE date) base when days_limit is
given.  The base criterion is abstracted as a predicate on messages. -/
inductive SearchCriteria
  | base (p : Msg → Bool)
  | since (day : Int) (rest : SearchCriteria)

/-- Server-side meaning of a search criterion (standard IMAP SEARCH
semantics: SINCE keeps messages whose internal date is on or after the
given day, conjoined with the remaining criteria). -/
def SearchCriteria.matches : SearchCriteria → Msg → Bool
  | .base p, m => p m
  | .since d c, m => decide (d ≤ m.date_day) && c.matches m

/-- The days_limit adjustment of Fetcher A: when a limit is given, the
criteria string is rebuilt as (SINCE now-limit) base. -/
def apply_days_limit (now_day : Int) (days_limit : Option Int)
    (c : SearchCriteria) : SearchCriteria :=
  match days_limit with
  | some k => .since (now_day - k) c
  | none => c

end EmailPdf

namespace Zimbra

/-- The reserved characters of the regular expression [\\/*?:"<>|] used by
clean_filename in src/zimbra_pdf_retriever.py. -/
def reserved_chars : List Char := ['\\', '/', '*', '?', ':', '"', '<', '>', '|']

/-- Character-wise action of re.sub in src/zimbra_pdf_retriever.py. -/
def replace_reserved (c : Char) : Char :=
  if c ∈ reserved_chars then '_' else c

/-- clean_filename of src/zimbra_pdf_retriever.py, identical glue except
that no byte decoding is attempted. -/
def clean_filename (filename : Option String) : String :=
  match filename with
  | some s =>
    if s = "" then "unnamed_attachment.pdf"
    else String.mk (s.data.map replace_reserved)
  | none => "unnamed_attachment.pdf"

/-- Monthly folder name derived from the message date by
get_monthly_folder: f"{year}-{month:02d}". -/
def folder_name_of (year month : Nat) : String :=
  nat_repr_py year ++ "-" ++ zero_pad 2 (nat_repr_py month)

/-- Folder name exactly as the specification words it: the four-digit
year, a hyphen, and the zero-padded two-digit month.  Kept separate from
folder_name_of (which is translated from the code) so the two renderings
can be compared. -/
def spec_folder_name (year month : Nat) : String :=
  zero_pad 4 (nat_repr_py year) ++ "-" ++ zero_pad 2 (nat_repr_py month)

/-- get_monthly_folder of src/zimbra_pdf_retriever.py (the directory
creation side effect is dropped; only the returned path matters). -/
def get_monthly_folder (year month : Nat) (base_output_dir : String) : String :=
  path_join base_output_dir (folder_name_of year month)

/-- One attachment as exposed by the imap-tools library: the script reads
only the filename (and the payload, which the model elides). -/
structure Attachment where
  filename : String

/-- One parsed message of Fetcher B.  date_day is the internal date at day
granularity for search; date_year and date_month drive the monthly folder. -/
structure Msg where
  subject : String
  seen : Bool
  date_day : Int
  date_year : Nat
  date_month : Nat
  attachments : List Attachment

/-- The numbered candidate path probed for counter k:
os.path.join(monthly_folder, f"{base_name}_{counter}{ext}"). -/
def cand (folder base ext : String) (k : Nat) : String :=
  path_join folder (base ++ "_" ++ nat_repr_py k ++ ext)

/-- The while loop of the collision probe: existing is the set of paths on
disk, path the current candidate, counter the next suffix to try.  Fuel
makes the recursion structural; unique_path always passes enough fuel for
the probe to find a free path. -/
def probe_aux (existing : List String) (folder base ext : String) :
    String → Nat → Nat → Option String
  | _, _, 0 => none
  | path, counter, fuel + 1 =>
    if path ∈ existing then
      probe_aux existing folder base ext (cand folder base ext counter)
        (counter + 1) fuel
    else some path

/-- The unique-path computation of the download loop: start from
os.path.join(monthly_folder, filename) and append _1, _2, ... until the
path does not exist. -/
def unique_path (existing : List String) (folder filename : String) : Option String :=
  let be := splitext filename
  probe_aux existing folder be.1 be.2 (path_join folder filename) 1
    (existing.length + 2)

/-- Processing of one attachment inside the message loop: only filenames
ending in .pdf (case-insensitively) are saved; the write returns the new
filesystem and the written path.  The none branch of unique_path is
unreachable (unique_path_total below). -/
def process_attachment (fs : List String) (folder : String) (a : Attachment) :
    List String × List String :=
  if ends_with (lower_str a.filename) ".pdf" = true then
    match unique_path fs folder (clean_filename (some a.filename)) with
    | some p => (p :: fs, [p])
    | none => (fs, [])
  else (fs, [])

/-- Left-to-right processing of the attachments of one message. -/
def process_attachments (fs : List String) (folder : String) :
    List Attachment → List String × List String
  | [] => (fs, [])
  | a :: rest =>
    let r1 := process_attachment fs folder a
    let r2 := process_attachments r1.1 folder rest
    (r2.1, r1.2 ++ r2.2)

/-- Outcome of handing one message of the lazily fetched sequence to the
loop body: a parsed message, or an exception raised while processing it
(Fetcher B has no per-message handler, so it propagates to the single
top-level handler). -/
inductive MsgResult
  | ok (m : Msg)
  | raises

/-- The message loop of Fetcher B: an exception aborts the remaining
batch; the paths written so far survive in the accumulator kept by the
caller.  Returns final filesystem, written paths, and whether the
top-level handler printed an error. -/
def run_messages (output_dir : String) :
    List String → List MsgResult → List String × List String × Bool
  | fs, [] => (fs, [], false)
  | fs, .raises :: _ => (fs, [], true)
  | fs, .ok m :: rest =>
    let folder := get_monthly_folder m.date_year m.date_month output_dir
    let r1 := process_attachments fs folder m.attachments
    let r2 := run_messages output_dir r1.1 rest
    (r2.1, r1.2 ++ r2.2.1, r2.2.2)

/-- Observable outcome of one run of Fetcher B: final filesystem, the
returned list of written paths, and whether the top-level handler printed
an error. -/
structure RunResult where
  fs : List String
  files : List String
  error_logged : Bool
  deriving DecidableEq

/-- download_pdf_attachments of src/zimbra_pdf_retriever.py.  The outcomes
of successive login attempts are supplied as a list of which exactly the
first is consumed (the script never retries); msgs lists the per-message
outcomes; fs is the filesystem at entry. -/
def download_pdf_attachments (login_results : List Bool) (msgs : List MsgResult)
    (output_dir : String) (fs : List String) : RunResult :=
  match login_results with
  | [] => ⟨fs, [], true⟩
  | ok1 :: _ =>
    if ok1 = false then ⟨fs, [], true⟩
    else
      let r := run_messages output_dir fs msgs
      ⟨r.1, r.2.1, r.2.2⟩

/-- The conjunction of search predicates built by Fetcher B out of
only_unread, search_term and days_limit, as lowered by imap-tools:
AND(seen=False), AND(subject=term), AND(date_gte=date). -/
structure Criteria where
  seen_false : Bool
  subject_term : Option String
  date_gte : Option Int

/-- The criteria construction of Fetcher B: the date bound is the current
day minus days_limit days. -/
def build_criteria (now_day : Int) (only_unread : Bool)
    (search_term : Option String) (days_limit : Option Int) : Criteria :=
  { seen_false := only_unread
    subject_term := search_term
    date_gte := days_limit.map (fun k => now_day - k) }

/-- Server-side meaning of the composed criteria (imap-tools lowers them
to one conjoined IMAP SEARCH query): unseen, subject containment and
internal date on or after the bound must all hold. -/
def Criteria.matches (c : Criteria) (m : Msg) : Bool :=
  (!c.seen_false || !m.seen) &&
  (match c.subject_term with
    | some t => is_substr t m.subject
    | none => true) &&
  (match c.date_gte with
    | some d => decide (d ≤ m.date_day)
    | none => true)

end Zimbra

example : EmailPdf.clean_filename (some "a/b:c") = "a_b_c" := by decide
example : Zimbra.clean_filename none = "unnamed_attachment.pdf" := by decide
example : nat_repr_py 2025 = "2025" := by decide
example : zero_pad 2 (nat_repr_py 5) = "05" := by decide
example : splitext "name.pdf" = ("name", ".pdf") := by decide
example : splitext ".hidden" = (".hidden", "") := by decide
example : splitext "a.tar.gz" = ("a.tar", ".gz") := by decide
example : is_substr "attachment" "inline; attachment; x" = true := by decide
example :
    (Zimbra.process_attachments [] "out/2025-05"
      [⟨"name.pdf"⟩, ⟨"name.pdf"⟩, ⟨"name.pdf"⟩]).2 =
    ["out/2025-05/name.pdf", "out/2025-05/name_1.pdf", "out/2025-05/name_2.pdf"] := by
  decide
example : Zimbra.folder_name_of 2025 5 = "2025-05" := by decide
example : Zimbra.folder_name_of 99 5 = "99-05" := by decide

/-! Helper lemmas -/

theorem string_eq_of_data {s t : String} (h : s.data = t.data) : s = t := by
  cases s; cases t; exact congrArg String.mk h

theorem string_mk_data (s : String) : String.mk s.data = s := by
  cases s; rfl

theorem zimbra_replace_eq_emailpdf : Zimbra.replace_reserved = EmailPdf.replace_reserved := rfl

theorem zimbra_clean_eq_emailpdf : Zimbra.clean_filename = EmailPdf.clean_filename := by
  funext x
  cases x <;> rfl

theorem zimbra_reserved_eq_emailpdf : Zimbra.reserved_chars = EmailPdf.reserved_chars := rfl

namespace EmailPdf

theorem clean_filename_of_ne_empty (s : String) (h : s ≠ "") :
    clean_filename (some s) = String.mk (s.data.map replace_reserved) := by
  simp [clean_filename, h]

theorem replace_reserved_not_mem (c : Char) : replace_reserved c ∉ reserved_chars := by
  unfold replace_reserved
  by_cases h : c ∈ reserved_chars
  · simp only [h, if_pos]
    decide
  · simp only [h, if_neg]
    exact h

theorem clean_filename_no_reserved (x : Option String) :
    ∀ c ∈ (clean_filename x).data, c ∉ reserved_chars := by
  match x with
  | none => decide
  | some s =>
    by_cases h : s = ""
    · subst h; decide
    · rw [clean_filename_of_ne_empty s h]
      intro c hc
      rcases List.mem_map.1 hc with ⟨a, _, rfl⟩
      exact replace_reserved_not_mem a

theorem clean_filename_ne_empty (x : Option String) : clean_filename x ≠ "" := by
  match x with
  | none => decide
  | some s =>
    by_cases h : s = ""
    · subst h; decide
    · rw [clean_filename_of_ne_empty s h]
      intro he
      exact h (string_eq_of_data (by simpa using congrArg String.data he))

theorem clean_filename_fixed (s : String) (h1 : s ≠ "")
    (h2 : ∀ c ∈ s.data, c ∉ reserved_chars) : clean_filename (some s) = s := by
  rw [clean_filename_of_ne_empty s h1]
  refine string_eq_of_data ?_
  show s.data.map replace_reserved = s.data
  calc s.data.map replace_reserved = s.data.map id := by
        refine List.map_congr_left (fun a ha => ?_)
        simp [replace_reserved, h2 a ha]
    _ = s.data := List.map_id s.data

theorem clean_filename_idem (x : Option String) :
    clean_filename (some (clean_filename x)) = clean_filename x :=
  clean_filename_fixed _ (clean_filename_ne_empty x) (clean_filename_no_reserved x)

end EmailPdf

theorem nat_digits_aux_succ (f n : Nat) :
    nat_digits_aux (f + 1) n =
      if n < 10 then [Nat.digitChar n]
      else nat_digits_aux f (n / 10) ++ [Nat.digitChar (n % 10)] := rfl

theorem nat_digits_aux_fuel (a b n : Nat) (h1 : n < a) (h2 : n < b) :
    nat_digits_aux a n = nat_digits_aux b n := by
  induction a generalizing b n with
  | zero => omega
  | succ f ih =>
    obtain ⟨g, rfl⟩ : ∃ g, b = g + 1 := ⟨b - 1, by omega⟩
    by_cases hn : n < 10
    · simp [nat_digits_aux_succ, hn]
    · have hd : n / 10 < n := Nat.div_lt_self (by omega) (by omega)
      rw [nat_digits_aux_succ, nat_digits_aux_succ, if_neg hn, if_neg hn,
        ih g (n / 10) (by omega) (by omega)]

theorem nat_digits_lt (n : Nat) (h : n < 10) :
    nat_digits_aux (n + 1) n = [Nat.digitChar n] := by
  simp [nat_digits_aux_succ, h]

theorem nat_digits_ge (n : Nat) (h : 10 ≤ n) :
    nat_digits_aux (n + 1) n =
      nat_digits_aux (n / 10 + 1) (n / 10) ++ [Nat.digitChar (n % 10)] := by
  have hd : n / 10 < n := Nat.div_lt_self (by omega) (by omega)
  rw [nat_digits_aux_succ, if_neg (Nat.not_lt.2 h),
    nat_digits_aux_fuel n (n / 10 + 1) (n / 10) (by omega) (by omega)]

theorem nat_digits_ne_nil (n : Nat) : nat_digits_aux (n + 1) n ≠ [] := by
  by_cases h : n < 10
  · rw [nat_digits_lt n h]; simp
  · rw [nat_digits_ge n (by omega)]; simp

theorem digit_char_inj : ∀ a, a < 10 → ∀ b, b < 10 →
    Nat.digitChar a = Nat.digitChar b → a = b := by decide

theorem nat_digits_inj : ∀ a b : Nat,
    nat_digits_aux (a + 1) a = nat_digits_aux (b + 1) b → a = b := by
  intro a
  induction a using Nat.strong_induction_on with
  | _ a ih =>
    intro b h
    by_cases ha : a < 10 <;> by_cases hb : b < 10
    · rw [nat_digits_lt a ha, nat_digits_lt b hb] at h
      exact digit_char_inj a ha b hb (by simpa using h)
    · rw [nat_digits_lt a ha, nat_digits_ge b (by omega)] at h
      have hl := congrArg List.length h
      simp at hl
      exact absurd hl (nat_digits_ne_nil (b / 10))
    · rw [nat_digits_ge a (by omega), nat_digits_lt b hb] at h
      have hl := congrArg List.length h
      simp at hl
      exact absurd hl (nat_digits_ne_nil (a / 10))
    · rw [nat_digits_ge a (by omega), nat_digits_ge b (by omega)] at h
      have hsp := List.append_inj' h (by simp)
      have hdiv : a / 10 = b / 10 :=
        ih (a / 10) (Nat.div_lt_self (by omega) (by omega)) (b / 10) hsp.1
      have hmod : a % 10 = b % 10 :=
        digit_char_inj _ (Nat.mod_lt _ (by omega)) _ (Nat.mod_lt _ (by omega))
          (by simpa using hsp.2)
      omega

theorem nat_repr_py_inj {a b : Nat} (h : nat_repr_py a = nat_repr_py b) : a = b :=
  nat_digits_inj a b (congrArg String.data h)

theorem nat_digits_len : ∀ k n : Nat, 10 ^ k ≤ n → n < 10 ^ (k + 1) →
    (nat_digits_aux (n + 1) n).length = k + 1 := by
  intro k
  induction k with
  | zero =>
    intro n h1 h2
    rw [nat_digits_lt n (by simpa using h2)]
    rfl
  | succ k ih =>
    intro n h1 h2
    have hpow : 10 ≤ 10 ^ (k + 1) := by
      calc (10 : Nat) = 10 ^ 1 := by ring
        _ ≤ 10 ^ (k + 1) := Nat.pow_le_pow_right (by omega) (by omega)
    have h10 : 10 ≤ n := le_trans hpow h1
    rw [nat_digits_ge n h10]
    have hlo : 10 ^ k ≤ n / 10 := by
      rw [Nat.le_div_iff_mul_le (by omega)]
      calc 10 ^ k * 10 = 10 ^ (k + 1) := by ring
        _ ≤ n := h1
    have hhi : n / 10 < 10 ^ (k + 1) := by
      rw [Nat.div_lt_iff_lt_mul (by omega)]
      calc n < 10 ^ (k + 2) := h2
        _ = 10 ^ (k + 1) * 10 := by ring
    simp [ih (n / 10) hlo hhi]

namespace Zimbra

theorem cand_inj (folder base ext : String) {j k : Nat}
    (h : cand folder base ext j = cand folder base ext k) : j = k := by
  have hd := congrArg String.data h
  simp only [cand, path_join, String.data_append, List.append_assoc,
    List.append_cancel_left_eq, List.append_cancel_right_eq] at hd
  exact nat_digits_inj j k hd

theorem probe_aux_succ (existing : List String) (folder base ext path : String)
    (counter fuel : Nat) :
    probe_aux existing folder base ext path counter (fuel + 1) =
      if path ∈ existing then
        probe_aux existing folder base ext (cand folder base ext counter)
          (counter + 1) fuel
      else some path := rfl

theorem probe_aux_some_not_mem (existing : List String) (folder base ext : String) :
    ∀ (fuel counter : Nat) (path p : String),
      probe_aux existing folder base ext path counter fuel = some p →
      p ∉ existing := by
  intro fuel
  induction fuel with
  | zero =>
    intro counter path p h
    exact Option.noConfusion h
  | succ f ih =>
    intro counter path p h
    rw [probe_aux_succ] at h
    by_cases hm : path ∈ existing
    · rw [if_pos hm] at h
      exact ih (counter + 1) _ p h
    · rw [if_neg hm] at h
      injection h with h2
      subst h2
      exact hm

theorem probe_aux_none_entry (existing : List String) (folder base ext path : String)
    (counter f : Nat)
    (h : probe_aux existing folder base ext path counter (f + 1) = none) :
    path ∈ existing := by
  rw [probe_aux_succ] at h
  by_cases hm : path ∈ existing
  · exact hm
  · rw [if_neg hm] at h
    exact Option.noConfusion h

theorem probe_aux_none_mem (existing : List String) (folder base ext : String) :
    ∀ (fuel counter : Nat) (path : String),
      probe_aux existing folder base ext path counter fuel = none →
      ∀ j, counter ≤ j → j + 1 < counter + fuel →
      cand folder base ext j ∈ existing := by
  intro fuel
  induction fuel with
  | zero =>
    intro counter path h j hj1 hj2
    omega
  | succ f ih =>
    intro counter path h j hj1 hj2
    rw [probe_aux_succ] at h
    by_cases hm : path ∈ existing
    · rw [if_pos hm] at h
      by_cases hj : j = counter
      · subst hj
        obtain ⟨g, rfl⟩ : ∃ g, f = g + 1 := ⟨f - 1, by omega⟩
        exact probe_aux_none_entry existing folder base ext _ (j + 1) g h
      · exact ih (counter + 1) (cand folder base ext counter) h j (by omega) (by omega)
    · rw [if_neg hm] at h
      exact Option.noConfusion h

theorem unique_path_total (existing : List String) (folder filename : String) :
    ∃ p, unique_path existing folder filename = some p ∧ p ∉ existing := by
  have hu : unique_path existing folder filename =
      probe_aux existing folder (splitext filename).1 (splitext filename).2
        (path_join folder filename) 1 (existing.length + 2) := rfl
  cases hp : probe_aux existing folder (splitext filename).1 (splitext filename).2
      (path_join folder filename) 1 (existing.length + 2) with
  | some p =>
    exact ⟨p, by rw [hu, hp],
      probe_aux_some_not_mem existing folder _ _ _ _ _ p hp⟩
  | none =>
    exfalso
    have hmem := probe_aux_none_mem existing folder (splitext filename).1
      (splitext filename).2 _ 1 _ hp
    have hsub : (List.range (existing.length + 1)).map
        (fun i => cand folder (splitext filename).1 (splitext filename).2 (i + 1)) ⊆
        existing := by
      intro x hx
      rcases List.mem_map.1 hx with ⟨i, hi, rfl⟩
      have hi2 : i < existing.length + 1 := List.mem_range.1 hi
      exact hmem (i + 1) (by omega) (by omega)
    have hnd : ((List.range (existing.length + 1)).map
        (fun i => cand folder (splitext filename).1 (splitext filename).2 (i + 1))).Nodup := by
      refine List.Nodup.map ?_ (List.nodup_range (existing.length + 1))
      intro i j hij
      have := cand_inj folder (splitext filename).1 (splitext filename).2 hij
      omega
    have hle := (hnd.subperm hsub).length_le
    simp at hle

theorem run_messages_abort (output_dir : String) :
    ∀ (xs : List MsgResult) (fs : List String) (ys : List MsgResult),
      (run_messages output_dir fs (xs ++ MsgResult.raises :: ys)).2.1 =
        (run_messages output_dir fs xs).2.1 ∧
      (run_messages output_dir fs (xs ++ MsgResult.raises :: ys)).2.2 = true := by
  intro xs
  induction xs with
  | nil =>
    intro fs ys
    simp [run_messages]
  | cons x rest ih =>
    intro fs ys
    cases x with
    | raises => simp [run_messages]
    | ok m =>
      simp only [List.cons_append, run_messages, List.append_eq]
      exact ⟨by rw [(ih _ ys).1], (ih _ ys).2⟩

end Zimbra

/-! Claims -/

/-- C1: for every input string containing characters from the reserved set
of clean_filename, both fetchers replace every occurrence of each reserved
character with an underscore (character-wise substitution by
replace_reserved) and the returned string contains no reserved character. -/
theorem C1_clean_filename_replaces_reserved (s : String)
    (h : ∃ c ∈ s.data, c ∈ EmailPdf.reserved_chars) :
    (EmailPdf.clean_filename (some s)).data = s.data.map EmailPdf.replace_reserved ∧
    (∀ c ∈ (EmailPdf.clean_filename (some s)).data, c ∉ EmailPdf.reserved_chars) ∧
    (Zimbra.clean_filename (some s)).data = s.data.map Zimbra.replace_reserved ∧
    (∀ c ∈ (Zimbra.clean_filename (some s)).data, c ∉ Zimbra.reserved_chars) := by
  have hne : s ≠ "" := by
    rcases h with ⟨c, hc, _⟩
    intro he
    subst he
    simp at hc
  refine ⟨?_, EmailPdf.clean_filename_no_reserved (some s), ?_, ?_⟩
  · rw [EmailPdf.clean_filename_of_ne_empty s hne]
  · rw [zimbra_clean_eq_emailpdf, zimbra_replace_eq_emailpdf,
      EmailPdf.clean_filename_of_ne_empty s hne]
  · rw [zimbra_clean_eq_emailpdf, zimbra_reserved_eq_emailpdf]
    exact EmailPdf.clean_filename_no_reserved (some s)

theorem C1_witness :
    (∃ c ∈ ("a/b*c" : String).data, c ∈ EmailPdf.reserved_chars) ∧
    ((EmailPdf.clean_filename (some "a/b*c")).data =
        "a/b*c".data.map EmailPdf.replace_reserved ∧
      (∀ c ∈ (EmailPdf.clean_filename (some "a/b*c")).data, c ∉ EmailPdf.reserved_chars) ∧
      (Zimbra.clean_filename (some "a/b*c")).data =
        "a/b*c".data.map Zimbra.replace_reserved ∧
      (∀ c ∈ (Zimbra.clean_filename (some "a/b*c")).data, c ∉ Zimbra.reserved_chars)) :=
  ⟨by decide, C1_clean_filename_replaces_reserved "a/b*c" (by decide)⟩

/-- C6 as stated is refuted by the empty string: its character list is
empty, so it contains no reserved character, yet clean_filename does not
return it unchanged (the falsy check substitutes the default name
instead). -/
theorem C6_counterexample :
    ("" : String).data = [] ∧
    EmailPdf.clean_filename (some "") = "unnamed_attachment.pdf" ∧
    Zimbra.clean_filename (some "") = "unnamed_attachment.pdf" ∧
    EmailPdf.clean_filename (some "") ≠ "" ∧
    Zimbra.clean_filename (some "") ≠ "" := by
  refine ⟨rfl, by decide, by decide, by decide, by decide⟩

/-- C6 amended: sanitization is idempotent in both fetchers: every
NONEMPTY already-clean name (no reserved characters) is returned
unchanged, and for every input applying clean_filename twice equals
applying it once. -/
theorem C6_sanitize_idempotent :
    (∀ s : String, s ≠ "" → (∀ c ∈ s.data, c ∉ EmailPdf.reserved_chars) →
      EmailPdf.clean_filename (some s) = s ∧ Zimbra.clean_filename (some s) = s) ∧
    (∀ x : Option String,
      EmailPdf.clean_filename (some (EmailPdf.clean_filename x)) =
        EmailPdf.clean_filename x ∧
      Zimbra.clean_filename (some (Zimbra.clean_filename x)) =
        Zimbra.clean_filename x) := by
  constructor
  · intro s h1 h2
    refine ⟨EmailPdf.clean_filename_fixed s h1 h2, ?_⟩
    rw [zimbra_clean_eq_emailpdf]
    exact EmailPdf.clean_filename_fixed s h1 h2
  · intro x
    refine ⟨EmailPdf.clean_filename_idem x, ?_⟩
    rw [zimbra_clean_eq_emailpdf]
    exact EmailPdf.clean_filename_idem x

theorem C6_witness :
    (EmailPdf.clean_filename (some "report_2025.pdf") = "report_2025.pdf" ∧
      Zimbra.clean_filename (some "report_2025.pdf") = "report_2025.pdf") ∧
    (EmailPdf.clean_filename (some (EmailPdf.clean_filename (some "a/b"))) =
        EmailPdf.clean_filename (some "a/b") ∧
      Zimbra.clean_filename (some (Zimbra.clean_filename (some "a/b"))) =
        Zimbra.clean_filename (some "a/b")) :=
  ⟨C6_sanitize_idempotent.1 "report_2025.pdf" (by decide) (by decide),
    C6_sanitize_idempotent.2 (some "a/b")⟩

/-- C7: for every empty or absent filename (None or the empty string),
clean_filename in both fetchers returns the literal default
unnamed_attachment.pdf. -/
theorem C7_default_name :
    EmailPdf.clean_filename none = "unnamed_attachment.pdf" ∧
    EmailPdf.clean_filename (some "") = "unnamed_attachment.pdf" ∧
    Zimbra.clean_filename none = "unnamed_attachment.pdf" ∧
    Zimbra.clean_filename (some "") = "unnamed_attachment.pdf" := by
  refine ⟨rfl, by decide, rfl, by decide⟩

/-- C2: Fetcher B de-duplication.  Concretely, a run saving three
attachments with the same cleaned name name.pdf into the same monthly
folder 2025-05 writes name.pdf, name_1.pdf, name_2.pdf.  In general, the
linear probe of the download loop always terminates on a path that is
free (not among the existing paths). -/
theorem C2_dedup_probe :
    (Zimbra.download_pdf_attachments [true]
        [Zimbra.MsgResult.ok ⟨"s", false, 0, 2025, 5, [⟨"name.pdf"⟩]⟩,
          Zimbra.MsgResult.ok ⟨"s", false, 0, 2025, 5, [⟨"name.pdf"⟩]⟩,
          Zimbra.MsgResult.ok ⟨"s", false, 0, 2025, 5, [⟨"name.pdf"⟩]⟩]
        "out" []).files =
      ["out/2025-05/name.pdf", "out/2025-05/name_1.pdf", "out/2025-05/name_2.pdf"] ∧
    (∀ (existing : List String) (folder filename : String),
      ∃ p, Zimbra.unique_path existing folder filename = some p ∧ p ∉ existing) :=
  ⟨by decide, fun existing folder filename => Zimbra.unique_path_total existing folder filename⟩

/-- C3 as stated is refuted at year 99, month 5 (a date Python datetime
allows): the code renders the year without padding as 99-05, which does
not consist of a four-digit year. -/
theorem C3_counterexample :
    Zimbra.folder_name_of 99 5 = "99-05" ∧
    Zimbra.spec_folder_name 99 5 = "0099-05" ∧
    Zimbra.folder_name_of 99 5 ≠ Zimbra.spec_folder_name 99 5 := by
  refine ⟨by decide, by decide, by decide⟩

/-- C3 amended: for every message date whose year has four digits
(1000..9999, which covers all realistic mail), the monthly folder name is
exactly the four-digit year, a hyphen, and the zero-padded two-digit
month; in particular year 2025, month 5 yields 2025-05. -/
theorem C3_monthly_folder_name (year month : Nat)
    (h1 : 1000 ≤ year) (h2 : year ≤ 9999) :
    Zimbra.folder_name_of year month = Zimbra.spec_folder_name year month ∧
    Zimbra.folder_name_of 2025 5 = "2025-05" := by
  constructor
  · unfold Zimbra.folder_name_of Zimbra.spec_folder_name
    have hlen : (nat_repr_py year).data.length = 4 := by
      have e3 : (10 : Nat) ^ 3 = 1000 := by norm_num
      have e4 : (10 : Nat) ^ 4 = 10000 := by norm_num
      exact nat_digits_len 3 year (by omega) (by omega)
    have hpad : zero_pad 4 (nat_repr_py year) = nat_repr_py year := by
      unfold zero_pad
      rw [hlen]
      simp [string_mk_data]
    rw [hpad]
  · decide

theorem C3_witness :
    Zimbra.folder_name_of 2025 5 = Zimbra.spec_folder_name 2025 5 ∧
    Zimbra.folder_name_of 2025 5 = "2025-05" :=
  C3_monthly_folder_name 2025 5 (by decide) (by decide)

/-- C4: only PDF attachments are ever written.  In Fetcher A a part whose
content type is not application/pdf produces no file regardless of its
content disposition; in Fetcher B an attachment whose (lowercased)
filename does not end in .pdf — the PDF test that fetcher applies — is not
written and leaves the filesystem unchanged. -/
theorem C4_only_pdf_written :
    (∀ (output_dir timestamp subject : String) (p : EmailPdf.Part),
      p.content_type ≠ "application/pdf" →
      EmailPdf.part_output output_dir timestamp subject p = none) ∧
    (∀ (fs : List String) (folder : String) (a : Zimbra.Attachment),
      ends_with (lower_str a.filename) ".pdf" = false →
      Zimbra.process_attachment fs folder a = (fs, [])) := by
  constructor
  · intro d t s p h
    unfold EmailPdf.part_output
    rw [if_neg (fun hcon => h hcon.2)]
  · intro fs folder a h
    unfold Zimbra.process_attachment
    rw [if_neg (fun hcon => by rw [h] at hcon; exact Bool.noConfusion hcon)]

theorem C4_witness :
    EmailPdf.part_output "out" "ts" "subj"
        ⟨"attachment; filename=x.png", "image/png", some "x.png"⟩ = none ∧
    Zimbra.process_attachment [] "out/2025-05" ⟨"notes.txt"⟩ = ([], []) :=
  ⟨C4_only_pdf_written.1 "out" "ts" "subj"
      ⟨"attachment; filename=x.png", "image/png", some "x.png"⟩ (by decide),
    C4_only_pdf_written.2 [] "out/2025-05" ⟨"notes.txt"⟩ (by decide)⟩

/-- C5: with days_limit 7 every message dated (at the day granularity at
which IMAP SINCE and date_gte compare) more than 7 days before the run
time fails the search criteria of either fetcher, and Fetcher A computes
the bound as current day minus 7 conjoined with the other criteria. -/
theorem C5_days_limit_excludes_old (now_day : Int) :
    (∀ (c : EmailPdf.SearchCriteria) (m : EmailPdf.Msg),
      m.date_day < now_day - 7 →
      (EmailPdf.apply_days_limit now_day (some 7) c).matches m = false) ∧
    (∀ (u : Bool) (t : Option String) (m : Zimbra.Msg),
      m.date_day < now_day - 7 →
      (Zimbra.build_criteria now_day u t (some 7)).matches m = false) ∧
    (∀ (c : EmailPdf.SearchCriteria) (m : EmailPdf.Msg),
      (EmailPdf.apply_days_limit now_day (some 7) c).matches m =
        (decide (now_day - 7 ≤ m.date_day) && c.matches m)) := by
  refine ⟨?_, ?_, ?_⟩
  · intro c m h
    have hn : ¬(now_day - 7 ≤ m.date_day) := by omega
    simp [EmailPdf.apply_days_limit, EmailPdf.SearchCriteria.matches, hn]
  · intro u t m h
    have hn : ¬(now_day - 7 ≤ m.date_day) := by omega
    simp [Zimbra.build_criteria, Zimbra.Criteria.matches, hn]
  · intro c m
    rfl

theorem C5_witness :
    ((EmailPdf.apply_days_limit 0 (some 7)
        (EmailPdf.SearchCriteria.base (fun _ => true))).matches
      ⟨none, -8, false, []⟩ = false) ∧
    ((Zimbra.build_criteria 0 false none (some 7)).matches
      ⟨"s", false, -8, 2025, 5, []⟩ = false) :=
  ⟨(C5_days_limit_excludes_old 0).1 (EmailPdf.SearchCriteria.base (fun _ => true))
      ⟨none, -8, false, []⟩ (by decide),
    (C5_days_limit_excludes_old 0).2.1 false none ⟨"s", false, -8, 2025, 5, []⟩ (by decide)⟩

/-- C8: when the first connection or login attempt of either fetcher
fails, the run returns the empty list, logs the failure, and consults no
further connection outcome and no mailbox content — no retry, no message
processed, and in Fetcher B the filesystem is untouched. -/
theorem C8_connect_failure_aborts :
    (∀ (rest : List Bool) (search_ok : Bool) (fetched : List EmailPdf.FetchResult)
        (output_dir timestamp : String),
      EmailPdf.download_pdf_attachments (false :: rest) search_ok fetched
        output_dir timestamp = ⟨[], true, 0⟩) ∧
    (∀ (rest : List Bool) (msgs : List Zimbra.MsgResult) (output_dir : String)
        (fs : List String),
      Zimbra.download_pdf_attachments (false :: rest) msgs output_dir fs =
        ⟨fs, [], true⟩) :=
  ⟨fun _ _ _ _ _ => rfl, fun _ _ _ _ => rfl⟩

/-- C9: per-message failure policy.  Fetcher A: a message whose fetch or
parse raises is caught individually, so the returned files are the same
as if that message were absent and exactly one more per-message error is
logged.  Fetcher B: an exception on one message aborts the remaining
batch — the returned files are those accumulated before the bad message,
and the only failure signal is the printed error together with that empty
or truncated list. -/
theorem C9_per_message_isolation :
    (∀ (c : List Bool) (xs ys : List EmailPdf.FetchResult) (d t : String),
      (EmailPdf.download_pdf_attachments (true :: c) true
          (xs ++ EmailPdf.FetchResult.raises :: ys) d t).files =
        (EmailPdf.download_pdf_attachments (true :: c) true (xs ++ ys) d t).files ∧
      (EmailPdf.download_pdf_attachments (true :: c) true
          (xs ++ EmailPdf.FetchResult.raises :: ys) d t).msg_errors =
        (EmailPdf.download_pdf_attachments (true :: c) true (xs ++ ys) d t).msg_errors + 1) ∧
    (∀ (c : List Bool) (xs ys : List Zimbra.MsgResult) (d : String) (fs : List String),
      (Zimbra.download_pdf_attachments (true :: c)
          (xs ++ Zimbra.MsgResult.raises :: ys) d fs).files =
        (Zimbra.download_pdf_attachments (true :: c) xs d fs).files ∧
      (Zimbra.download_pdf_attachments (true :: c)
          (xs ++ Zimbra.MsgResult.raises :: ys) d fs).error_logged = true) := by
  constructor
  · intro c xs ys d t
    unfold EmailPdf.download_pdf_attachments
    simp [EmailPdf.msg_files, EmailPdf.is_msg_error, List.countP_cons]
    omega
  · intro c xs ys d fs
    unfold Zimbra.download_pdf_attachments
    simp only [Bool.true_eq_false, if_neg, if_false]
    exact ⟨(Zimbra.run_messages_abort d xs fs ys).1,
      (Zimbra.run_messages_abort d xs fs ys).2⟩

/-- C10: in Fetcher A a part with attachment disposition and PDF content
type but a falsy filename is skipped silently (no path is produced), and
every path that is produced stems from a truthy part filename run through
the substitution branch of clean_filename — so the unnamed_attachment.pdf
default is never the source of an output filename. -/
theorem C10_unnamed_parts_skipped :
    (∀ (d t s : String) (p : EmailPdf.Part),
      p.filename = none → EmailPdf.part_output d t s p = none) ∧
    (∀ (d t s : String) (p : EmailPdf.Part) (path : String),
      EmailPdf.part_output d t s p = some path →
      ∃ fn, p.filename = some fn ∧ fn ≠ "" ∧
        path = path_join d (s ++ "_" ++ t ++ "_" ++
          String.mk (fn.data.map EmailPdf.replace_reserved))) := by
  constructor
  · intro d t s p h
    unfold EmailPdf.part_output
    split
    · rw [h]
    · rfl
  · intro d t s p path h
    unfold EmailPdf.part_output at h
    split at h
    · cases hf : p.filename with
      | none => rw [hf] at h; exact Option.noConfusion h
      | some fn =>
        rw [hf] at h
        have h3 : (if fn = "" then none
            else some (path_join d (s ++ "_" ++ t ++ "_" ++
              EmailPdf.clean_filename (some fn)))) = some path := h
        by_cases he : fn = ""
        · rw [if_pos he] at h3
          exact Option.noConfusion h3
        · rw [if_neg he] at h3
          injection h3 with h2
          refine ⟨fn, rfl, he, ?_⟩
          rw [← h2, EmailPdf.clean_filename_of_ne_empty fn he]
    · exact Option.noConfusion h

theorem C10_witness :
    EmailPdf.part_output "out" "ts" "subj"
        ⟨"attachment", "application/pdf", none⟩ = none ∧
    (∃ fn, (EmailPdf.Part.filename ⟨"attachment", "application/pdf", some "a.pdf"⟩) =
        some fn ∧ fn ≠ "" ∧
      "out/subj_ts_a.pdf" = path_join "out" ("subj" ++ "_" ++ "ts" ++ "_" ++
        String.mk (fn.data.map EmailPdf.replace_reserved))) :=
  ⟨C10_unnamed_parts_skipped.1 "out" "ts" "subj"
      ⟨"attachment", "application/pdf", none⟩ rfl,
    C10_unnamed_parts_skipped.2 "out" "ts" "subj"
      ⟨"attachment", "application/pdf", some "a.pdf"⟩ "out/subj_ts_a.pdf" (by decide)⟩
